import Mathlib

/-!
A shallow embedding of the `fred-api` crate (a client library for the FRED
economic-data REST API) together with proofs about its request construction,
response decoding and series-filtering layers.

Modelling conventions:
* Rust `String`/`&str` values are modelled as their character sequences
  (`List Char`), so that `String::push`, `String::pop`, `str::contains` and
  friends become ordinary list operations.
* The ambient environment (the `FRED_API_KEY` variable) is passed explicitly
  as an `Option (List Char)`.
* The blocking HTTP transport (the external `reqwest` collaborator) is
  passed explicitly as an oracle from the request string to a body or a
  transport failure.
* Fallible code returns `Except FredError` / `Option`.
-/

namespace FredApi

/-- Rust strings modelled as their character sequences. -/
abbrev Str := List Char

/-- Rust `str::contains(pat)`: substring containment. -/
def strContains (s pat : Str) : Bool :=
  decide (List.IsInfix pat s)

/-- The `Format` enum (src/lib.rs 412-418): response format, JSON or XML. -/
inductive Format where
  | json
  | xml
deriving DecidableEq

/-- Rust `Display for Format` (src/lib.rs 420-427): renders the `file_type`
query parameter. -/
def Format.render : Format → Str
  | .json => "file_type=json".data
  | .xml => "file_type=xml".data

/-- The error taxonomy of the library.  The crate reports failures as
`anyhow` errors built from format strings; each constructor below carries
the payloads that the corresponding format string embeds:
* `configurationError` — "Expected FRED_API_KEY to be set" (src/lib.rs 459);
* `transportError` — a `reqwest` failure propagated by `?` (src/lib.rs 396-398);
* `emptyResponse` — "Http response to [req] was empty." (src/lib.rs 402);
* `apiError` — "Http request [req] failed with error [response]."
  (src/lib.rs 406), carrying the raw body;
* `decodeError` — "Failed to parse [response]" (src/lib.rs 388), carrying
  the raw body. -/
inductive FredError where
  | configurationError
  | transportError (msg : Str)
  | emptyResponse (req : Str)
  | apiError (req body : Str)
  | decodeError (body : Str)
deriving DecidableEq

/-- The `FredRequest` struct (src/lib.rs 463-468): endpoint path, rendered
key-value pairs, response format. -/
structure FredRequest where
  url : Str
  keyvals : List Str
  format : Format
deriving DecidableEq

/-- Rust `FredRequest::new` (src/lib.rs 487-496): renders each `(key, value)`
pair as `key=value` and stores the result, with the format fixed to JSON.
The `Display` bound on values is modelled by taking values already rendered
to strings.  Note that this constructor consults nothing fallible: it
always returns `Ok`. -/
def FredRequest.new (url : Str) (keyvals : List (Str × Str)) :
    Except FredError FredRequest :=
  .ok { url := url
        keyvals := keyvals.map (fun kv => kv.1 ++ "=".data ++ kv.2)
        format := .json }

/-- Rust `FredRequest::concat_keyvals` (src/lib.rs 498-506): push each rendered
pair followed by `sep` onto a string, then pop the final character. -/
def FredRequest.concat_keyvals (r : FredRequest) (sep : Char) : Str :=
  (r.keyvals.foldl (fun s kv => s ++ kv ++ [sep]) []).dropLast

/-- The ambient environment: the value of the `FRED_API_KEY` variable,
if set. -/
abbrev Env := Option Str

/-- Rust `IntoRequest::base_url for FredRequest` (src/lib.rs 452-456). -/
def FredRequest.base_url (_ : FredRequest) : Except FredError Str :=
  .ok "https://api.stlouisfed.org/".data

/-- Rust `IntoRequest::api_key for FredRequest` (src/lib.rs 458-460):
`env::var("FRED_API_KEY")`, mapping absence to the configuration error. -/
def FredRequest.api_key (env : Env) (_ : FredRequest) : Except FredError Str :=
  match env with
  | some k => .ok k
  | none => .error .configurationError

/-- Rust `IntoRequest::into_request for FredRequest` (src/lib.rs 439-450):
`format!("{}fred/{}?{}&api_key={}&{}", base_url()?, url, concat_keyvals('&'),
api_key()?, format)`. -/
def FredRequest.into_request (env : Env) (r : FredRequest) :
    Except FredError Str :=
  match r.base_url with
  | .error e => .error e
  | .ok base =>
    match r.api_key env with
    | .error e => .error e
    | .ok key =>
      .ok (base ++ "fred/".data ++ r.url ++ "?".data
            ++ r.concat_keyvals '&'
            ++ "&api_key=".data ++ key
            ++ "&".data ++ r.format.render)

/-- The blocking HTTP transport collaborator (`reqwest::blocking::get`
followed by `text_with_charset`, src/lib.rs 396-398), modelled as an oracle
from the request string to a body or a transport-level failure. -/
abbrev Transport := Str → Except FredError Str

/-- Rust `str::lines().next()` (src/lib.rs 400-403): the first line of a body —
the characters before the first newline, with a trailing carriage return
stripped — or `none` when the body is empty. -/
def firstLine (s : Str) : Option Str :=
  match s with
  | [] => none
  | _ =>
    let line := s.takeWhile (fun c => c ≠ '\n')
    some (if line.getLast? = some '\r' then line.dropLast else line)

/-- Rust `response` (src/lib.rs 392-409): build the request string, call the
transport, then fail if the body is empty or its first line contains the
literal substring `error_code`; otherwise return the raw body. -/
def response (env : Env) (transport : Transport) (r : FredRequest) :
    Except FredError Str :=
  match r.into_request env with
  | .error e => .error e
  | .ok req =>
    match transport req with
    | .error e => .error e
    | .ok body =>
      match firstLine body with
      | none => .error (.emptyResponse req)
      | some line =>
        if strContains line "error_code".data then
          .error (.apiError req body)
        else
          .ok body

/-- Rust `req` (src/lib.rs 379-389): make the request via `response`, then
coerce the body into the endpoint's return type with the serde decoder for
that type; a failed decode carries the original body.  The function is
generic in the decoder just as the Rust function is generic in the
`DeserializeOwned` target type. -/
def req {α : Type} (decode : Str → Option α) (env : Env)
    (transport : Transport) (r : FredRequest) : Except FredError α :=
  match response env transport r with
  | .error e => .error e
  | .ok body =>
    match decode body with
    | some v => .ok v
    | none => .error (.decodeError body)

/-- The query segment that the specification's template describes: the
`key=value` renderings joined by `&` in the supplied order.  Written from
the spec's words, to be compared with `FredRequest.concat_keyvals`. -/
def specJoinAmp : List Str → Str
  | [] => []
  | [kv] => kv
  | kv :: rest => kv ++ '&' :: specJoinAmp rest

/-- The spec-side query for a raw pair list: render each pair as
`key=value`, then join with `&`. -/
def specQuery (pairs : List (Str × Str)) : Str :=
  specJoinAmp (pairs.map (fun kv => kv.1 ++ "=".data ++ kv.2))

-- Helper lemmas relating the imperative push/pop loop to the spec-side
-- join.

theorem foldl_push_sep (sep : Char) (l : List Str) (acc : Str) :
    l.foldl (fun s kv => s ++ kv ++ [sep]) acc
      = acc ++ (l.map (fun kv => kv ++ [sep])).flatten := by
  induction l generalizing acc with
  | nil => simp
  | cons x xs ih =>
    simp only [List.foldl_cons, List.map_cons, List.flatten_cons]
    rw [ih]
    simp [List.append_assoc]

theorem dropLast_append_ne_nil {α : Type} (l₁ l₂ : List α) (h : l₂ ≠ []) :
    (l₁ ++ l₂).dropLast = l₁ ++ l₂.dropLast := by
  cases l₂ with
  | nil => exact absurd rfl h
  | cons b t => exact List.dropLast_append_cons

theorem dropLast_flatten_amp (l : List Str) :
    ((l.map (fun kv => kv ++ ['&'])).flatten).dropLast = specJoinAmp l := by
  induction l with
  | nil => simp [specJoinAmp]
  | cons x xs ih =>
    cases xs with
    | nil => simp [specJoinAmp]
    | cons y ys =>
      have hne : (((y :: ys).map (fun kv => kv ++ ['&'])).flatten) ≠ [] := by
        simp
      rw [List.map_cons, List.flatten_cons,
        dropLast_append_ne_nil _ _ hne, ih]
      simp [specJoinAmp]

/-- Rust `concat_keyvals` over the stored pairs is exactly the spec-side join. -/
theorem concat_keyvals_eq_specJoinAmp (r : FredRequest) :
    r.concat_keyvals '&' = specJoinAmp r.keyvals := by
  unfold FredRequest.concat_keyvals
  rw [foldl_push_sep, List.nil_append, dropLast_flatten_amp]

/-- The `SeriesItem` struct (src/lib.rs 937-954): one economic data
series.  `isize` fields become `Int`, `Option` fields stay `Option`. -/
structure SeriesItem where
  id : Str
  realtime_start : Str
  realtime_end : Str
  title : Str
  observation_start : Str
  observation_end : Str
  frequency : Str
  units : Str
  units_short : Str
  seasonal_adjustment : Str
  seasonal_adjustment_short : Str
  last_updated : Str
  popularity : Int
  group_popularity : Option Int
  notes : Option Str
deriving DecidableEq

/-- The `SeriesItems` newtype (src/lib.rs 579-580): an ordered collection
of series items wrapping a `Vec<SeriesItem>`. -/
structure SeriesItems where
  items : List SeriesItem
deriving DecidableEq

/-- The `SeriesItemsIter` struct (src/lib.rs 561-564): a borrowed view of
the collection plus a cursor. -/
structure SeriesItemsIter where
  data : SeriesItems
  count : Nat
deriving DecidableEq

/-- Rust `Iterator::next for SeriesItemsIter` (src/lib.rs 566-577): when the
cursor equals the length, yield `none`; otherwise increment the cursor and
index at `count - 1`.  The Rust indexing `self.data.0[self.count - 1]`
panics when out of bounds; the model surfaces such an access as a `none`
item via `List.get?`. -/
def SeriesItemsIter.next (it : SeriesItemsIter) :
    Option SeriesItem × SeriesItemsIter :=
  if it.count = it.data.items.length then
    (none, it)
  else
    (it.data.items.get? (it.count + 1 - 1), { it with count := it.count + 1 })

/-- Rust `SeriesItems::iter` (src/lib.rs 583-588): a fresh iterator with the
cursor at zero. -/
def SeriesItems.iter (s : SeriesItems) : SeriesItemsIter :=
  { data := s, count := 0 }

/-- Drain an iterator with the given amount of fuel, collecting the yielded
items in order and stopping at the first `none`, exactly as a Rust `for`
loop over the iterator consumes it. -/
def SeriesItemsIter.emitted (it : SeriesItemsIter) : Nat → List SeriesItem
  | 0 => []
  | n + 1 =>
    match it.next with
    | (none, _) => []
    | (some x, it') => x :: it'.emitted n

/-- Rust `SeriesItems::exclude_phrases` (src/lib.rs 591-599): keep the items
whose title contains none of the phrases, pushing kept clones onto a fresh
vector.  The loop over `self.iter()` is modelled as a fold over the
underlying list in order (see `seriesItemsIter_emits_all`). -/
def SeriesItems.exclude_phrases (s : SeriesItems) (phrases : List Str) :
    SeriesItems :=
  ⟨s.items.foldl
    (fun v series =>
      if !(phrases.any (fun title => strContains series.title title)) then
        v ++ [series]
      else v)
    []⟩

/-- Rust `SeriesItems::has_phrase` (src/lib.rs 602-610): keep the items whose
title contains the phrase. -/
def SeriesItems.has_phrase (s : SeriesItems) (phrase : Str) : SeriesItems :=
  ⟨s.items.foldl
    (fun v series =>
      if strContains series.title phrase then v ++ [series] else v)
    []⟩

/-- Rust `SeriesItems::equals_one_of` (src/lib.rs 613-621): keep the items whose
title equals one of the given titles. -/
def SeriesItems.equals_one_of (s : SeriesItems) (titles : List Str) :
    SeriesItems :=
  ⟨s.items.foldl
    (fun v series =>
      if titles.any (fun title => title = series.title) then
        v ++ [series]
      else v)
    []⟩

/-- Rust `SeriesItems::only_include` (src/lib.rs 624-632): keep the items whose
title contains at least one of the phrases.  This loop runs over `&self.0`
directly. -/
def SeriesItems.only_include (s : SeriesItems) (phrases : List Str) :
    SeriesItems :=
  ⟨s.items.foldl
    (fun v series =>
      if phrases.any (fun title => strContains series.title title) then
        v ++ [series]
      else v)
    []⟩

/-- The `Observation` struct (src/lib.rs 1061-1067): one data point of a
series. -/
structure Observation where
  realtime_start : Str
  realtime_end : Str
  date : Str
  value : Str
deriving DecidableEq

/-- The `Observations` newtype (src/lib.rs 1000-1001). -/
structure Observations where
  items : List Observation
deriving DecidableEq

/-- The `ObservationsIter` struct (src/lib.rs 1024-1027). -/
structure ObservationsIter where
  data : Observations
  count : Nat
deriving DecidableEq

/-- Rust `Iterator::next for ObservationsIter` (src/lib.rs 1029-1040): the same
cursor scheme as `SeriesItemsIter.next`. -/
def ObservationsIter.next (it : ObservationsIter) :
    Option Observation × ObservationsIter :=
  if it.count = it.data.items.length then
    (none, it)
  else
    (it.data.items.get? (it.count + 1 - 1), { it with count := it.count + 1 })

/-- Rust `Observations::iter` (src/lib.rs 1003-1010). -/
def Observations.iter (s : Observations) : ObservationsIter :=
  { data := s, count := 0 }

/-- Drain an `ObservationsIter` with the given fuel (see
`SeriesItemsIter.emitted`). -/
def ObservationsIter.emitted (it : ObservationsIter) : Nat → List Observation
  | 0 => []
  | n + 1 =>
    match it.next with
    | (none, _) => []
    | (some x, it') => x :: it'.emitted n

-- Helper lemmas for the filters: the push-if loop is `List.filter`.

theorem foldl_push_if_eq_filter {α : Type} (p : α → Bool) (l : List α)
    (acc : List α) :
    l.foldl (fun v x => if p x then v ++ [x] else v) acc
      = acc ++ l.filter p := by
  induction l generalizing acc with
  | nil => simp
  | cons x xs ih =>
    by_cases h : p x
    · simp [h, ih, List.filter_cons, List.append_assoc]
    · simp [h, ih, List.filter_cons]

theorem exclude_phrases_eq_filter (s : SeriesItems) (phrases : List Str) :
    (s.exclude_phrases phrases).items
      = s.items.filter
          (fun se => !(phrases.any (fun t => strContains se.title t))) := by
  unfold SeriesItems.exclude_phrases
  rw [foldl_push_if_eq_filter]
  simp

theorem has_phrase_eq_filter (s : SeriesItems) (phrase : Str) :
    (s.has_phrase phrase).items
      = s.items.filter (fun se => strContains se.title phrase) := by
  unfold SeriesItems.has_phrase
  rw [foldl_push_if_eq_filter]
  simp

theorem equals_one_of_eq_filter (s : SeriesItems) (titles : List Str) :
    (s.equals_one_of titles).items
      = s.items.filter (fun se => titles.any (fun t => t = se.title)) := by
  unfold SeriesItems.equals_one_of
  rw [foldl_push_if_eq_filter]
  simp

theorem only_include_eq_filter (s : SeriesItems) (phrases : List Str) :
    (s.only_include phrases).items
      = s.items.filter
          (fun se => phrases.any (fun t => strContains se.title t)) := by
  unfold SeriesItems.only_include
  rw [foldl_push_if_eq_filter]
  simp

-- Helper lemmas for the hand-written iterators.

theorem seriesItemsIter_emitted_from (n : Nat) :
    ∀ (c : Nat) (S : SeriesItems), c ≤ S.items.length →
      SeriesItemsIter.emitted { data := S, count := c } n
        = (S.items.drop c).take n := by
  induction n with
  | zero => intro c S _; simp [SeriesItemsIter.emitted]
  | succ n ih =>
    intro c S hc
    by_cases h : c = S.items.length
    · subst h
      simp [SeriesItemsIter.emitted, SeriesItemsIter.next]
    · have hlt : c < S.items.length := lt_of_le_of_ne hc h
      have hdrop := List.drop_eq_getElem_cons hlt
      simp only [SeriesItemsIter.emitted, SeriesItemsIter.next, h,
        if_false, Nat.add_sub_cancel, List.get?_eq_get hlt]
      rw [ih (c + 1) S hlt, hdrop, List.take_succ_cons,
        List.get_eq_getElem]

theorem seriesItemsIter_emits_all (S : SeriesItems) :
    (S.iter).emitted S.items.length = S.items := by
  rw [SeriesItems.iter, seriesItemsIter_emitted_from _ 0 S (Nat.zero_le _)]
  simp

theorem observationsIter_emitted_from (n : Nat) :
    ∀ (c : Nat) (S : Observations), c ≤ S.items.length →
      ObservationsIter.emitted { data := S, count := c } n
        = (S.items.drop c).take n := by
  induction n with
  | zero => intro c S _; simp [ObservationsIter.emitted]
  | succ n ih =>
    intro c S hc
    by_cases h : c = S.items.length
    · subst h
      simp [ObservationsIter.emitted, ObservationsIter.next]
    · have hlt : c < S.items.length := lt_of_le_of_ne hc h
      have hdrop := List.drop_eq_getElem_cons hlt
      simp only [ObservationsIter.emitted, ObservationsIter.next, h,
        if_false, Nat.add_sub_cancel, List.get?_eq_get hlt]
      rw [ih (c + 1) S hlt, hdrop, List.take_succ_cons,
        List.get_eq_getElem]

theorem observationsIter_emits_all (S : Observations) :
    (S.iter).emitted S.items.length = S.items := by
  rw [Observations.iter, observationsIter_emitted_from _ 0 S (Nat.zero_le _)]
  simp

/-! ### The response decoder

The crate delegates decoding to the external `serde_json` dependency
(`serde_json::from_str` at src/lib.rs 388), with the schema fixed by the
`#[derive(Deserialize)]` struct declarations.  The JSON syntax and the
derive semantics below are modelled from the spec's decoder contract
(spec §4.3: strict structural decode, no partial or lenient decoding) and
from the struct declarations in src: every non-`Option` field is required,
`Option` fields tolerate absence or `null`, unknown members are ignored.
The parser covers the JSON fragment the FRED schemas use (objects, arrays,
strings with simple escapes, integers, booleans, null); syntax outside the
fragment is a parse failure, i.e. a malformed body. -/

/-- JSON values. -/
inductive Json where
  | null
  | boolean (b : Bool)
  | num (n : Int)
  | str (s : Str)
  | arr (elems : List Json)
  | obj (members : List (Str × Json))

/-- Whitespace skipping for the parser. -/
def skipWs (s : Str) : Str :=
  s.dropWhile (fun c => [' ', '\n', '\t', '\r'].contains c)

/-- Simple escape sequences inside JSON string literals, as a lookup
table. -/
def escTable : List (Char × Char) :=
  [('n', '\n'), ('t', '\t'), ('r', '\r'), ('/', '/'), ('\\', '\\'), ('"', '"')]

/-- Decoded character of an escape sequence, when supported. -/
def escChar (e : Char) : Option Char :=
  (escTable.find? (fun kv => kv.1 = e)).map (fun kv => kv.2)

/-- Body of a JSON string literal, after the opening quote: the decoded
characters and the remainder after the closing quote. -/
def parseStringBody : Str → Option (Str × Str)
  | [] => none
  | '"' :: rest => some ([], rest)
  | '\\' :: [] => none
  | '\\' :: e :: rest =>
    match escChar e with
    | none => none
    | some c =>
      match parseStringBody rest with
      | none => none
      | some (s, r) => some (c :: s, r)
  | c :: rest =>
    match parseStringBody rest with
    | none => none
    | some (s, r) => some (c :: s, r)

/-- Leading decimal digits of the input and the remainder. -/
def takeDigits (s : Str) : List Char × Str :=
  s.span Char.isDigit

/-- Numeric value of a digit string. -/
def digitsToNat (ds : List Char) : Nat :=
  ds.foldl (fun n c => 10 * n + (Char.toNat c - Char.toNat '0')) 0

/-- True when the remainder continues the number with a fraction or an
exponent, which lies outside the modelled fragment. -/
def numContinues : Str → Bool
  | c :: _ => c = '.' ∨ c = 'e' ∨ c = 'E'
  | [] => false

/-- A JSON integer literal: optional minus sign and digits. -/
def parseNum (s : Str) : Option (Json × Str) :=
  match s with
  | '-' :: rest =>
    match takeDigits rest with
    | ([], _) => none
    | (ds, r) => if numContinues r then none else
        some (Json.num (-(digitsToNat ds : Int)), r)
  | _ =>
    match takeDigits s with
    | ([], _) => none
    | (ds, r) => if numContinues r then none else
        some (Json.num (digitsToNat ds : Int), r)

mutual

/-- A JSON value, by recursion on fuel. -/
def parseVal : Nat → Str → Option (Json × Str)
  | 0, _ => none
  | fuel + 1, s =>
    match skipWs s with
    | 'n' :: 'u' :: 'l' :: 'l' :: rest => some (Json.null, rest)
    | 't' :: 'r' :: 'u' :: 'e' :: rest => some (Json.boolean true, rest)
    | 'f' :: 'a' :: 'l' :: 's' :: 'e' :: rest => some (Json.boolean false, rest)
    | '"' :: rest =>
      match parseStringBody rest with
      | none => none
      | some (str, r) => some (Json.str str, r)
    | '[' :: rest =>
      match skipWs rest with
      | ']' :: r => some (Json.arr [], r)
      | _ =>
        match parseElems fuel rest with
        | none => none
        | some (es, r) => some (Json.arr es, r)
    | '\x7b' :: rest =>
      match skipWs rest with
      | '\x7d' :: r => some (Json.obj [], r)
      | _ =>
        match parseMembers fuel rest with
        | none => none
        | some (ms, r) => some (Json.obj ms, r)
    | c :: rest =>
      if c = '-' ∨ c.isDigit then parseNum (c :: rest) else none
    | [] => none

/-- One or more comma-separated array elements followed by the closing
bracket. -/
def parseElems : Nat → Str → Option (List Json × Str)
  | 0, _ => none
  | fuel + 1, s =>
    match parseVal fuel s with
    | none => none
    | some (v, r) =>
      match skipWs r with
      | ',' :: r2 =>
        match parseElems fuel r2 with
        | none => none
        | some (vs, r3) => some (v :: vs, r3)
      | ']' :: r2 => some ([v], r2)
      | _ => none

/-- One or more comma-separated object members followed by the closing
brace. -/
def parseMembers : Nat → Str → Option (List (Str × Json) × Str)
  | 0, _ => none
  | fuel + 1, s =>
    match skipWs s with
    | '"' :: r =>
      match parseStringBody r with
      | none => none
      | some (k, r2) =>
        match skipWs r2 with
        | ':' :: r3 =>
          match parseVal fuel r3 with
          | none => none
          | some (v, r4) =>
            match skipWs r4 with
            | ',' :: r5 =>
              match parseMembers fuel r5 with
              | none => none
              | some (ms, r6) => some ((k, v) :: ms, r6)
            | '\x7d' :: r5 => some ([(k, v)], r5)
            | _ => none
        | _ => none
    | _ => none

end

/-- Parse a whole body as one JSON value, requiring that only whitespace
remains, as `serde_json::from_str` does. -/
def parseJson (s : Str) : Option Json :=
  match parseVal (2 * s.length + 2) s with
  | some (v, rest) => if skipWs rest = [] then some v else none
  | none => none

/-- Member lookup within a JSON object, by key, first match. -/
def jLookup (members : List (Str × Json)) (key : Str) : Option Json :=
  match members with
  | [] => none
  | (k, v) :: rest => if k = key then some v else jLookup rest key

/-- A required string field. -/
def getString : Json → Option Str
  | .str s => some s
  | _ => none

/-- A required integer field. -/
def getInt : Json → Option Int
  | .num n => some n
  | _ => none

/-- An `Option<String>` field: absent or `null` is `none`; any other
non-string value is a type mismatch. -/
def getOptString : Option Json → Option (Option Str)
  | none => some none
  | some .null => some none
  | some (.str s) => some (some s)
  | some _ => none

/-- An `Option<isize>` field: absent or `null` is `none`; any other
non-integer value is a type mismatch. -/
def getOptInt : Option Json → Option (Option Int)
  | none => some none
  | some .null => some none
  | some (.num n) => some (some n)
  | some _ => none

/-- Strict decoder for `SeriesItem` read off its struct declaration
(src/lib.rs 937-954): twelve required string fields, one required integer,
two optional fields. -/
def decodeSeriesItem (j : Json) : Option SeriesItem :=
  match j with
  | .obj ms => do
    let id ← jLookup ms "id".data >>= getString
    let rs ← jLookup ms "realtime_start".data >>= getString
    let re ← jLookup ms "realtime_end".data >>= getString
    let title ← jLookup ms "title".data >>= getString
    let os ← jLookup ms "observation_start".data >>= getString
    let oe ← jLookup ms "observation_end".data >>= getString
    let freq ← jLookup ms "frequency".data >>= getString
    let units ← jLookup ms "units".data >>= getString
    let us ← jLookup ms "units_short".data >>= getString
    let sa ← jLookup ms "seasonal_adjustment".data >>= getString
    let sas ← jLookup ms "seasonal_adjustment_short".data >>= getString
    let lu ← jLookup ms "last_updated".data >>= getString
    let pop ← jLookup ms "popularity".data >>= getInt
    let gp ← getOptInt (jLookup ms "group_popularity".data)
    let notes ← getOptString (jLookup ms "notes".data)
    some { id := id, realtime_start := rs, realtime_end := re,
           title := title, observation_start := os, observation_end := oe,
           frequency := freq, units := units, units_short := us,
           seasonal_adjustment := sa, seasonal_adjustment_short := sas,
           last_updated := lu, popularity := pop, group_popularity := gp,
           notes := notes }
  | _ => none

/-- Strict decoder for the `SeriesItems` newtype: a JSON array of series
items, each decoded strictly. -/
def decodeSeriesItems (j : Json) : Option SeriesItems :=
  match j with
  | .arr es =>
    match es.mapM decodeSeriesItem with
    | none => none
    | some items => some ⟨items⟩
  | _ => none

/-- The `Series` response envelope (src/lib.rs 912-917). -/
structure Series where
  realtime_start : Str
  realtime_end : Str
  seriess : SeriesItems
deriving DecidableEq

/-- Strict decoder for the `Series` envelope read off its struct
declaration: `realtime_start`, `realtime_end` and `seriess` are all
required. -/
def decodeSeries (j : Json) : Option Series :=
  match j with
  | .obj ms => do
    let rs ← jLookup ms "realtime_start".data >>= getString
    let re ← jLookup ms "realtime_end".data >>= getString
    let ss ← jLookup ms "seriess".data >>= decodeSeriesItems
    some { realtime_start := rs, realtime_end := re, seriess := ss }
  | _ => none

/-- Model of `serde_json::from_str::<Series>`: parse, then decode
strictly. -/
def fromStrSeries (body : Str) : Option Series :=
  (parseJson body).bind decodeSeries

/-- Rust `FredClient::series` (src/lib.rs 218-222): a representative
Facade endpoint — fixed path `series`, the caller's argument as the
`series_id` parameter, result decoded into the `Series` envelope. -/
def FredClient.series (env : Env) (transport : Transport)
    (series_id : Str) : Except FredError Series :=
  match FredRequest.new "series".data [("series_id".data, series_id)] with
  | .error e => .error e
  | .ok r => req fromStrSeries env transport r

/-- A concrete series item used to instantiate iterator statements. -/
def sampleSeriesItem : SeriesItem :=
  { id := "X1".data, realtime_start := "2020-01-01".data
    realtime_end := "2020-12-31".data, title := "CPI Japan".data
    observation_start := "1960-01-01".data
    observation_end := "2020-12-01".data, frequency := "Monthly".data
    units := "Index".data, units_short := "Idx".data
    seasonal_adjustment := "NSA".data
    seasonal_adjustment_short := "NSA".data
    last_updated := "2021-01-01".data, popularity := 50
    group_popularity := none, notes := none }

/-- A concrete observation used to instantiate iterator statements. -/
def sampleObservation : Observation :=
  { realtime_start := "2020-01-01".data, realtime_end := "2020-12-31".data
    date := "2020-06-01".data, value := "101.5".data }

/-! ### Claim theorems -/

/-- C1 counterexample: with the credential absent from the environment,
request construction still succeeds — `FredRequest::new` for the
`category` endpoint returns `Ok` (it consults the environment not at all
and has no failure path), refuting the claim that `FredRequest::new` fails
with a `ConfigurationError` when the credential is absent. -/
theorem c1_counterexample_new_never_fails :
    FredRequest.new "category".data [("category_id".data, "1".data)]
      = .ok { url := "category".data
              keyvals := ["category_id=1".data]
              format := .json } := by
  rfl

/-- C1 (amended): with `FRED_API_KEY` absent, every Facade call — `req`
applied to any request built by `FredRequest::new`, with any decoder and
any transport — fails with the `ConfigurationError`, and the result does
not depend on the transport, so the failure precedes any network call; the
error arises when `into_request` fetches the key, not in
`FredRequest::new`; and with the key present `into_request` always
succeeds, so the absent credential is the only failure mode of request
construction. -/
theorem c1_config_error_before_network (path : Str)
    (pairs : List (Str × Str)) (r : FredRequest)
    (_h : FredRequest.new path pairs = .ok r) :
    (∀ {α : Type} (decode : Str → Option α) (transport : Transport),
        req decode none transport r = .error .configurationError)
    ∧ r.into_request none = .error .configurationError
    ∧ (∀ key : Str, ∃ url, r.into_request (some key) = .ok url) := by
  refine ⟨fun decode transport => ?_, ?_, fun key => ⟨_, rfl⟩⟩
  · simp [req, response, FredRequest.into_request, FredRequest.base_url,
      FredRequest.api_key]
  · simp [FredRequest.into_request, FredRequest.base_url,
      FredRequest.api_key]

/-- Witness for C1 (amended), at the `category` endpoint with a trivial
decoder and a transport that would answer successfully: the call still
fails with the configuration error. -/
theorem c1_witness :
    FredRequest.new "category".data [("category_id".data, "1".data)]
        = .ok { url := "category".data
                keyvals := ["category_id=1".data]
                format := .json }
    ∧ req (fun _ => some ()) none (fun _ => .ok "ok".data)
        { url := "category".data
          keyvals := ["category_id=1".data]
          format := .json }
        = .error .configurationError :=
  ⟨by rfl,
   (c1_config_error_before_network "category".data
      [("category_id".data, "1".data)]
      { url := "category".data
        keyvals := ["category_id=1".data]
        format := .json }
      (by rfl)).1 (fun _ => some ()) (fun _ => .ok "ok".data)⟩

/-- C2: for every credential, endpoint path and ordered parameter list,
the request string built by `into_request` is exactly the base URL, the
`fred/` prefix and the path, then `?`, then the `key=value` renderings
joined by `&` in input order, then `&api_key=` and the credential, then
`&file_type=json`; in particular it starts with the fixed base URL and
endpoint path and ends with `file_type=json`, regardless of parameter
count. -/
theorem c2_into_request_form (key path : Str) (pairs : List (Str × Str)) :
    ∃ r url, FredRequest.new path pairs = .ok r
      ∧ r.into_request (some key) = .ok url
      ∧ url = "https://api.stlouisfed.org/".data ++ "fred/".data ++ path
          ++ "?".data ++ specQuery pairs ++ "&api_key=".data ++ key
          ++ "&".data ++ "file_type=json".data
      ∧ ("https://api.stlouisfed.org/".data ++ "fred/".data ++ path) <+: url
      ∧ "file_type=json".data <:+ url := by
  refine ⟨_, _, rfl, ?_, rfl, ?_, ?_⟩
  · show FredRequest.into_request _ _ = _
    simp only [FredRequest.into_request, FredRequest.base_url,
      FredRequest.api_key]
    rw [concat_keyvals_eq_specJoinAmp]
    rfl
  · exact ⟨"?".data ++ specQuery pairs ++ "&api_key=".data ++ key
      ++ "&".data ++ "file_type=json".data, by simp [List.append_assoc]⟩
  · exact ⟨"https://api.stlouisfed.org/".data ++ "fred/".data ++ path
      ++ "?".data ++ specQuery pairs ++ "&api_key=".data ++ key
      ++ "&".data, by simp [List.append_assoc]⟩

/-- C7: for every endpoint path and every ordered parameter list, the
stored pairs are the `key=value` renderings in input order — duplicates
and all — and the query `concat_keyvals` serialises is those renderings
joined by `&` in exactly that order, with no reordering and no
deduplication. -/
theorem c7_query_preserves_order (path : Str) (pairs : List (Str × Str)) :
    ∃ r, FredRequest.new path pairs = .ok r
      ∧ r.keyvals = pairs.map (fun kv => kv.1 ++ "=".data ++ kv.2)
      ∧ r.concat_keyvals '&' = specQuery pairs := by
  refine ⟨_, rfl, rfl, ?_⟩
  rw [concat_keyvals_eq_specJoinAmp]
  rfl

/-- C3: whenever the transport's body has a first line containing the
literal substring `error_code`, the call fails with the `ApiError`
carrying the raw body, regardless of the remaining body content; and no
structural schema decode is attempted — `req` yields that same error for
every decoder. -/
theorem c3_error_sniff (key : Str) (r : FredRequest)
    (transport : Transport) (url body line : Str)
    (hurl : r.into_request (some key) = .ok url)
    (ht : transport url = .ok body)
    (hline : firstLine body = some line)
    (hcode : strContains line "error_code".data = true) :
    response (some key) transport r = .error (.apiError url body)
    ∧ ∀ {α : Type} (decode : Str → Option α),
        req decode (some key) transport r = .error (.apiError url body) := by
  have hresp : response (some key) transport r
      = .error (.apiError url body) := by
    simp only [response, hurl, ht, hline, hcode, if_true]
  exact ⟨hresp, fun decode => by simp only [req, hresp]⟩

/-- Witness for C3: a body whose first line is the scenario error object
`{"error_code":429,"error_message":"Too Many Requests"}` followed by
further content yields the `ApiError`, with the decode step never
consulted. -/
theorem c3_witness :
    firstLine ("\x7b\"error_code\":429,\"error_message\":\"Too Many Requests\"\x7d\nrest of body".data)
        = some "\x7b\"error_code\":429,\"error_message\":\"Too Many Requests\"\x7d".data
    ∧ strContains
        "\x7b\"error_code\":429,\"error_message\":\"Too Many Requests\"\x7d".data
        "error_code".data = true
    ∧ req fromStrSeries (some "k".data)
        (fun _ => .ok "\x7b\"error_code\":429,\"error_message\":\"Too Many Requests\"\x7d\nrest of body".data)
        { url := "series".data
          keyvals := ["series_id=X".data]
          format := .json }
        = .error (.apiError
            "https://api.stlouisfed.org/fred/series?series_id=X&api_key=k&file_type=json".data
            "\x7b\"error_code\":429,\"error_message\":\"Too Many Requests\"\x7d\nrest of body".data) :=
  ⟨by decide, by decide,
   (c3_error_sniff "k".data
      { url := "series".data
        keyvals := ["series_id=X".data]
        format := .json }
      (fun _ => .ok "\x7b\"error_code\":429,\"error_message\":\"Too Many Requests\"\x7d\nrest of body".data)
      "https://api.stlouisfed.org/fred/series?series_id=X&api_key=k&file_type=json".data
      "\x7b\"error_code\":429,\"error_message\":\"Too Many Requests\"\x7d\nrest of body".data
      "\x7b\"error_code\":429,\"error_message\":\"Too Many Requests\"\x7d".data
      (by rfl) (by rfl) (by decide) (by decide)).2 fromStrSeries⟩

/-- C10: when the transport's body is empty (so it contains no lines), the
`response` function fails with the error stating the response was empty,
before the error sniff or any schema decode: `req` yields that same error
for every decoder. -/
theorem c10_empty_body (key : Str) (r : FredRequest)
    (transport : Transport) (url : Str)
    (hurl : r.into_request (some key) = .ok url)
    (ht : transport url = .ok []) :
    response (some key) transport r = .error (.emptyResponse url)
    ∧ ∀ {α : Type} (decode : Str → Option α),
        req decode (some key) transport r = .error (.emptyResponse url) := by
  have hresp : response (some key) transport r
      = .error (.emptyResponse url) := by
    simp only [response, hurl, ht, firstLine]
  exact ⟨hresp, fun decode => by simp only [req, hresp]⟩

/-- Witness for C10: an empty body for the `releases` endpoint fails with
the empty-response error. -/
theorem c10_witness :
    FredRequest.into_request (some "k".data)
        { url := "releases".data, keyvals := [], format := .json }
        = .ok "https://api.stlouisfed.org/fred/releases?&api_key=k&file_type=json".data
    ∧ req fromStrSeries (some "k".data) (fun _ => .ok [])
        { url := "releases".data, keyvals := [], format := .json }
        = .error (.emptyResponse
            "https://api.stlouisfed.org/fred/releases?&api_key=k&file_type=json".data) :=
  ⟨by rfl,
   (c10_empty_body "k".data
      { url := "releases".data, keyvals := [], format := .json }
      (fun _ => .ok [])
      "https://api.stlouisfed.org/fred/releases?&api_key=k&file_type=json".data
      (by rfl) (by rfl)).2 fromStrSeries⟩

/-- C8: for every body that passes the first-line error sniff, decoding is
strict: when the serde decode of the `Series` schema fails, `req` fails
with the `DecodeError` carrying the original body; `req` succeeds only
when the full decode succeeds, so it never returns a partially populated
value; and a JSON object with no `realtime_start` member — however
syntactically valid — never decodes. -/
theorem c8_strict_decode (key : Str) (r : FredRequest)
    (transport : Transport) (url body line : Str)
    (hurl : r.into_request (some key) = .ok url)
    (ht : transport url = .ok body)
    (hline : firstLine body = some line)
    (hsniff : strContains line "error_code".data = false) :
    (fromStrSeries body = none →
        req fromStrSeries (some key) transport r = .error (.decodeError body))
    ∧ (∀ v, req fromStrSeries (some key) transport r = .ok v →
        fromStrSeries body = some v)
    ∧ (∀ ms : List (Str × Json), jLookup ms "realtime_start".data = none →
        decodeSeries (.obj ms) = none) := by
  have hresp : response (some key) transport r = .ok body := by
    simp only [response, hurl, ht, hline, hsniff]
    simp
  refine ⟨fun hdec => by simp only [req, hresp, hdec], fun v hv => ?_, ?_⟩
  · simp only [req, hresp] at hv
    cases hdec : fromStrSeries body with
    | none => exact absurd hv (by simp [hdec])
    | some w => simp only [hdec] at hv; cases hv; rfl
  · intro ms hms
    simp only [decodeSeries, hms]
    rfl

/-- Witness for C8: the scenario body — a syntactically valid `Series`
envelope missing the required `realtime_start` member — fails the strict
decode, and the call yields `DecodeError`, not a partially populated
value. -/
theorem c8_witness :
    strContains "\x7b\"realtime_end\":\"2020-08-01\",\"seriess\":[]\x7d".data
        "error_code".data = false
    ∧ fromStrSeries "\x7b\"realtime_end\":\"2020-08-01\",\"seriess\":[]\x7d".data = none
    ∧ req fromStrSeries (some "k".data)
        (fun _ => .ok "\x7b\"realtime_end\":\"2020-08-01\",\"seriess\":[]\x7d".data)
        { url := "series".data
          keyvals := ["series_id=X".data]
          format := .json }
        = .error (.decodeError
            "\x7b\"realtime_end\":\"2020-08-01\",\"seriess\":[]\x7d".data) :=
  ⟨by decide, by rfl,
   (c8_strict_decode "k".data
      { url := "series".data
        keyvals := ["series_id=X".data]
        format := .json }
      (fun _ => .ok "\x7b\"realtime_end\":\"2020-08-01\",\"seriess\":[]\x7d".data)
      "https://api.stlouisfed.org/fred/series?series_id=X&api_key=k&file_type=json".data
      "\x7b\"realtime_end\":\"2020-08-01\",\"seriess\":[]\x7d".data
      "\x7b\"realtime_end\":\"2020-08-01\",\"seriess\":[]\x7d".data
      (by rfl) (by rfl) (by rfl) (by decide)).1 (by rfl)⟩

/-- Two `SeriesItems` collections with the same underlying items are
equal. -/
theorem SeriesItems.eq_of_items_eq :
    ∀ {x y : SeriesItems}, x.items = y.items → x = y
  | ⟨_⟩, ⟨_⟩, rfl => rfl

/-- C4: each of the four filters returns the `List.filter` of the source's
underlying list by the filter's title predicate — hence a new collection
holding exactly the items whose title satisfies the predicate
(respectively: contains none of the phrases / contains the phrase / equals
one of the titles / contains at least one of the phrases), in their
original relative order.  The embedding is pure — each filter takes the
receiver by value and builds its result in a fresh vector — so the source
collection is unchanged by the call, as in the borrowing Rust original. -/
theorem c4_filters_keep_exactly_matching_titles (s : SeriesItems)
    (phrases : List Str) (phrase : Str) (titles : List Str) :
    (s.exclude_phrases phrases).items
        = s.items.filter
            (fun se => !(phrases.any (fun t => strContains se.title t)))
    ∧ (s.has_phrase phrase).items
        = s.items.filter (fun se => strContains se.title phrase)
    ∧ (s.equals_one_of titles).items
        = s.items.filter (fun se => titles.any (fun t => t = se.title))
    ∧ (s.only_include phrases).items
        = s.items.filter
            (fun se => phrases.any (fun t => strContains se.title t)) :=
  ⟨exclude_phrases_eq_filter s phrases, has_phrase_eq_filter s phrase,
   equals_one_of_eq_filter s titles, only_include_eq_filter s phrases⟩

/-- C5: for every collection and phrase, `has_phrase p` and
`exclude_phrases [p]` partition the collection: together they are a
permutation of the source (so every item lands in one of the two, with
multiplicity preserved), and no item is in both. -/
theorem c5_exclude_has_partition (s : SeriesItems) (p : Str) :
    List.Perm
      ((s.has_phrase p).items ++ (s.exclude_phrases [p]).items) s.items
    ∧ (∀ x ∈ s.items,
        x ∈ (s.has_phrase p).items ∨ x ∈ (s.exclude_phrases [p]).items)
    ∧ (∀ x, x ∈ (s.has_phrase p).items →
        x ∉ (s.exclude_phrases [p]).items) := by
  have hh := has_phrase_eq_filter s p
  have he := exclude_phrases_eq_filter s [p]
  have hpred : (fun se : SeriesItem =>
        !([p].any (fun t => strContains se.title t)))
      = fun se => !(strContains se.title p) := by
    funext se
    simp
  rw [he, hpred] at *
  refine ⟨?_, ?_, ?_⟩
  · rw [hh]
    exact List.filter_append_perm _ s.items
  · intro x hx
    by_cases hp : strContains x.title p
    · exact Or.inl (by rw [hh]; exact List.mem_filter.mpr ⟨hx, hp⟩)
    · refine Or.inr (List.mem_filter.mpr ⟨hx, ?_⟩)
      simp [hp]
  · intro x hx hx'
    have h1 : strContains x.title p = true := by
      rw [hh] at hx
      exact (List.mem_filter.mp hx).2
    have h2 := (List.mem_filter.mp hx').2
    simp [h1] at h2

/-- C6: `only_include` is `has_phrase` generalised to several phrases —
on a singleton list it returns the very same collection, and in general it
keeps exactly the items whose title contains at least one of the given
substrings. -/
theorem c6_only_include_generalises_has_phrase (s : SeriesItems) (p : Str)
    (phrases : List Str) :
    s.only_include [p] = s.has_phrase p
    ∧ (s.only_include phrases).items
        = s.items.filter
            (fun se => phrases.any (fun t => strContains se.title t)) := by
  refine ⟨?_, only_include_eq_filter s phrases⟩
  apply SeriesItems.eq_of_items_eq
  rw [only_include_eq_filter, has_phrase_eq_filter]
  congr 1
  funext se
  simp

/-- C9: the hand-written iterators are sound.  For any iterator state whose
cursor is within bounds, `next` keeps the cursor within bounds (the
invariant `count <= length`), and when the cursor is strictly below the
length the indexing at `count - 1` after the increment is in bounds,
yielding exactly the element at the old cursor; a fresh iterator therefore
emits each element of the underlying vector exactly once, in order, and an
exhausted iterator answers `none`, unchanged, on every subsequent call.
Both `SeriesItemsIter` and `ObservationsIter` are covered. -/
theorem c9_iterators_in_bounds_and_complete (S : SeriesItems)
    (T : Observations) (it : SeriesItemsIter) (jt : ObservationsIter)
    (hs : it.count ≤ it.data.items.length)
    (ho : jt.count ≤ jt.data.items.length) :
    ((it.next).2.count ≤ (it.next).2.data.items.length
      ∧ (∀ h : it.count < it.data.items.length,
          it.next = (some (it.data.items.get ⟨it.count, h⟩),
            { it with count := it.count + 1 }))
      ∧ (it.count = it.data.items.length → it.next = (none, it)))
    ∧ (S.iter).emitted S.items.length = S.items
    ∧ ((jt.next).2.count ≤ (jt.next).2.data.items.length
      ∧ (∀ h : jt.count < jt.data.items.length,
          jt.next = (some (jt.data.items.get ⟨jt.count, h⟩),
            { jt with count := jt.count + 1 }))
      ∧ (jt.count = jt.data.items.length → jt.next = (none, jt)))
    ∧ (T.iter).emitted T.items.length = T.items := by
  refine ⟨⟨?_, ?_, ?_⟩, seriesItemsIter_emits_all S, ⟨?_, ?_, ?_⟩,
    observationsIter_emits_all T⟩
  · by_cases h : it.count = it.data.items.length
    · simp [SeriesItemsIter.next, h, hs]
    · have hlt : it.count < it.data.items.length := lt_of_le_of_ne hs h
      simp [SeriesItemsIter.next, h]
      omega
  · intro h
    have hne : it.count ≠ it.data.items.length := Nat.ne_of_lt h
    simp [SeriesItemsIter.next, hne, List.get?_eq_get h]
  · intro h
    simp [SeriesItemsIter.next, h]
  · by_cases h : jt.count = jt.data.items.length
    · simp [ObservationsIter.next, h, ho]
    · have hlt : jt.count < jt.data.items.length := lt_of_le_of_ne ho h
      simp [ObservationsIter.next, h]
      omega
  · intro h
    have hne : jt.count ≠ jt.data.items.length := Nat.ne_of_lt h
    simp [ObservationsIter.next, hne, List.get?_eq_get h]
  · intro h
    simp [ObservationsIter.next, h]

/-- Witness for C9: a fresh iterator over a one-element series collection
(and a one-element observation collection) drains exactly that element. -/
theorem c9_witness :
    (SeriesItems.iter ⟨[sampleSeriesItem]⟩).count
        ≤ (SeriesItems.iter ⟨[sampleSeriesItem]⟩).data.items.length
    ∧ (Observations.iter ⟨[sampleObservation]⟩).count
        ≤ (Observations.iter ⟨[sampleObservation]⟩).data.items.length
    ∧ ((⟨[sampleSeriesItem]⟩ : SeriesItems).iter).emitted 1
        = [sampleSeriesItem]
    ∧ ((⟨[sampleObservation]⟩ : Observations).iter).emitted 1
        = [sampleObservation] :=
  ⟨Nat.zero_le _, Nat.zero_le _,
   (c9_iterators_in_bounds_and_complete ⟨[sampleSeriesItem]⟩
      ⟨[sampleObservation]⟩ (SeriesItems.iter ⟨[sampleSeriesItem]⟩)
      (Observations.iter ⟨[sampleObservation]⟩)
      (Nat.zero_le _) (Nat.zero_le _)).2.1,
   (c9_iterators_in_bounds_and_complete ⟨[sampleSeriesItem]⟩
      ⟨[sampleObservation]⟩ (SeriesItems.iter ⟨[sampleSeriesItem]⟩)
      (Observations.iter ⟨[sampleObservation]⟩)
      (Nat.zero_le _) (Nat.zero_le _)).2.2.2⟩

end FredApi
